import Mathlib

/-!
# Retry and dead-letter handling of the assignment-create consumer

Shallow embedding of the delivery handler registered in
`cmd/gb-assignment-create-consumer/main.go` (the closure passed to
`rabbitmq.NewConsumer`), together with the two library routines its
retry-count extraction goes through: `fmt.Sprint` and `strconv.Atoi`.

Conventions of the embedding:

* a Go `int` is an `Int` in the range `minInt .. maxInt` (64-bit targets);
  the one arithmetic step of the handler, `retryCount++`, wraps around
  explicitly (`wrapInt`);
* a Go string is a `String`; `len` is the UTF-8 byte length and the byte loops
  of `strconv` run over the characters (a character outside ASCII stands for
  bytes that are all `>= 0x80`, none of which is a sign or a digit, so such a
  character is rejected exactly where its bytes are);
* a Go `error` is an `Option GoError`, `none` being `nil`;
* the processor, the publisher and the configuration are declared outside
  `main.go`; the handler takes them as parameters;
* logging is not part of the model.
-/

namespace AssignmentCreateConsumer

/-! ## Go values -/

/-- Go error value (`nil` is `none` at the use sites). -/
structure GoError where
  msg : String
deriving DecidableEq, Repr

/-- Bit width of Go's `int` (`strconv.IntSize`) on 64-bit targets. -/
def intSize : Nat := 64

/-- Largest Go `int`. -/
def maxInt : Int := 2 ^ 63 - 1

/-- Smallest Go `int`. -/
def minInt : Int := -(2 ^ 63)

/-- Values a Go `int` can hold. -/
def isGoInt (x : Int) : Prop := minInt ≤ x ∧ x ≤ maxInt

instance (x : Int) : Decidable (isGoInt x) :=
  inferInstanceAs (Decidable (minInt ≤ x ∧ x ≤ maxInt))

/-- Two's-complement wrap-around of signed 64-bit arithmetic. -/
def wrapInt (x : Int) : Int := (x + 2 ^ 63) % 2 ^ 64 - 2 ^ 63

/-- Dynamic value stored under a key of an AMQP header table (`amqp.Table`,
a `map[string]interface{}`).  All of Go's integer kinds share the constructor
`int`; a value of any other kind (floating point, decimal, timestamp, byte
slice, nested table, array) is carried by the text `fmt.Sprint` yields for it,
which is the only thing the handler ever looks at. -/
inductive HeaderValue where
  | nil
  | bool (b : Bool)
  | int (i : Int)
  | str (s : String)
  | rendered (text : String)
deriving DecidableEq, Repr

/-- Header table, `rabbitmq.Table`: keys with their values. -/
abbrev Table := List (String × HeaderValue)

/-! ## `fmt.Sprint` -/

/-- The byte `'0' + d`. -/
def digitByte (d : Nat) : Char := Char.ofNat (48 + d)

/-- Digit loop of `fmt.fmtInteger` for base 10: writes the digits of `u` in
front of what the buffer already holds, least significant digit first
(`for u >= 10 { next := u / 10; buf[i] = '0' + u - next*10; u = next }`, then
the last digit).  The first argument bounds the number of iterations. -/
def fmtDigits : Nat → Nat → List Char → List Char
  | 0, _, buf => buf
  | room + 1, u, buf =>
    if u ≥ 10 then
      fmtDigits room (u / 10) (digitByte (u - u / 10 * 10) :: buf)
    else
      digitByte u :: buf

/-- Decimal text of an integer as `fmt` prints it with `%v`. -/
def fmtInteger (v : Int) : String :=
  let digits := fmtDigits (v.natAbs + 1) v.natAbs []
  String.mk (if v < 0 then '-' :: digits else digits)

/-- Text of a header value, `fmt.Sprint(value)`. -/
def Sprint : HeaderValue → String
  | .nil => "<nil>"
  | .bool b => if b then "true" else "false"
  | .int i => fmtInteger i
  | .str s => s
  | .rendered text => text

/-! ## `strconv.Atoi` -/

/-- The two causes of a `*strconv.NumError`. -/
inductive NumError where
  | ErrSyntax
  | ErrRange
deriving DecidableEq, Repr

/-- Loop of the fast path of `Atoi`: `ch -= '0'; if ch > 9 { syntax error };
n = n*10 + int(ch)`.  At most 18 characters are read here, so `n` stays below
`10^18` and the `int` arithmetic cannot overflow. -/
def atoiFast : List Char → Int → Int × Option NumError
  | [], n => (n, none)
  | ch :: rest, n =>
    if ch.toNat < 48 ∨ 57 < ch.toNat then (0, some NumError.ErrSyntax)
    else atoiFast rest (n * 10 + ((ch.toNat - 48 : Nat) : Int))

/-- The function `lower` of `strconv`: `c | ('x' - 'X')`. -/
def lower (c : Nat) : Nat := c ||| 32

/-- Loop of `ParseUint(s, 10, 0)` over the remaining characters, `n` being
the `uint64` accumulated so far.  On overflow Go returns the largest value
together with a range error. -/
def parseUintLoop : List Char → Nat → Nat × Option NumError
  | [], n => (n, none)
  | c :: rest, n =>
    let digit : Option Nat :=
      if 48 ≤ c.toNat ∧ c.toNat ≤ 57 then some (c.toNat - 48)
      else if 97 ≤ lower c.toNat ∧ lower c.toNat ≤ 122 then some (lower c.toNat - 97 + 10)
      else none
    match digit with
    | none => (0, some NumError.ErrSyntax)
    | some d =>
      if d ≥ 10 then (0, some NumError.ErrSyntax)
      else if n ≥ (2 ^ 64 - 1) / 10 + 1 then (2 ^ 64 - 1, some NumError.ErrRange)
      else
        let n10 := n * 10 % 2 ^ 64
        let n1 := (n10 + d) % 2 ^ 64
        if n1 < n10 ∨ n1 > 2 ^ 64 - 1 then (2 ^ 64 - 1, some NumError.ErrRange)
        else parseUintLoop rest n1

/-- `strconv.ParseUint(s, 10, 0)`. -/
def ParseUint (s : List Char) : Nat × Option NumError :=
  if s = [] then (0, some NumError.ErrSyntax) else parseUintLoop s 0

/-- `strconv.ParseInt(s, 10, 0)`. -/
def ParseInt (s : List Char) : Int × Option NumError :=
  match s with
  | [] => (0, some NumError.ErrSyntax)
  | c0 :: tail =>
    let neg : Bool := decide (c0 = '-')
    let digits := if c0 = '+' then tail else if c0 = '-' then tail else c0 :: tail
    let (un, err) := ParseUint digits
    if err = some NumError.ErrSyntax then (0, err)
    else
      let cutoff : Nat := 2 ^ 63
      if !neg && decide (un ≥ cutoff) then (((cutoff - 1 : Nat) : Int), some NumError.ErrRange)
      else if neg && decide (un > cutoff) then (-(cutoff : Int), some NumError.ErrRange)
      else
        let n := wrapInt (un : Int)
        (if neg then wrapInt (-n) else n, none)

/-- `strconv.Atoi(s)`: the value and the error it returns. -/
def Atoi (s : String) : Int × Option NumError :=
  let sLen := s.utf8ByteSize
  if (intSize = 32 ∧ (0 < sLen ∧ sLen < 10)) ∨ (intSize = 64 ∧ (0 < sLen ∧ sLen < 19)) then
    match s.data with
    | [] => (0, some NumError.ErrSyntax)
    | c0 :: tail =>
      if (c0 = '-' ∨ c0 = '+') ∧ tail = [] then (0, some NumError.ErrSyntax)
      else
        let digits := if c0 = '-' ∨ c0 = '+' then tail else c0 :: tail
        match atoiFast digits 0 with
        | (_, some e) => (0, some e)
        | (n, none) => (if c0 = '-' then -n else n, none)
  else
    ParseInt s.data

/-! ## Broker-side data -/

/-- The fields of `rabbitmq.Delivery` the handler reads. -/
structure Delivery where
  Body : List UInt8
  RoutingKey : String
  ContentType : String
  Headers : Table
deriving DecidableEq, Repr

/-- Verdict a handler returns to the consumer, `rabbitmq.Action`. -/
inductive Action where
  | Ack
  | NackDiscard
  | NackRequeue
deriving DecidableEq, Repr

/-- One call of `publisher.Publish(data, routingKeys, options...)` with the
three options the handler passes: exchange, content type and headers. -/
structure PublishCall where
  data : List UInt8
  routingKeys : List String
  exchange : String
  contentType : String
  headers : Table
deriving DecidableEq, Repr

/-- The fields of `config.Config` (package `pkg/config`) the handler reads;
`RABBITMQ_MAXIMUM_RETRY` is compared with an `int`, hence is one. -/
structure Config where
  RABBITMQ_ASSIGNMENT_EXCHANGE : String
  RABBITMQ_DEAD_LETTERING_EXCHANGE : String
  RABBITMQ_MAXIMUM_RETRY : Int
deriving DecidableEq, Repr

/-- The business processor (package `processor`): `Process(d)` returns an
error or `nil`. -/
structure Processor where
  Process : Delivery → Option GoError

/-- The publisher: `outcome` is the error the client library returns for a
publish (`nil` when the broker took the message). -/
structure Publisher where
  outcome : PublishCall → Option GoError

/-- The call `publisher.Publish(...)`: the publish is recorded after the ones
already made and the library's error is handed back to the caller. -/
def Publisher.Publish (publisher : Publisher) (call : PublishCall)
    (made : List PublishCall) : Option GoError × List PublishCall :=
  (publisher.outcome call, made ++ [call])

/-- What one run of the handler leaves behind: the action it returns, the
contents of the header map `d.Headers` refers to when it returns, and the
publishes it made, in order. -/
structure HandlerResult where
  action : Action
  headers : Table
  published : List PublishCall
deriving DecidableEq, Repr

/-! ## The handler -/

/-- Lines 74-83 of `main.go`: the retry count read from the header table.
`value, ok := d.Headers["x-retry"]`; when the key is there,
`strconv.Atoi(fmt.Sprint(value))`, and `0` when that returns an error. -/
def extractRetryCount (headers : Table) : Int :=
  match headers.lookup "x-retry" with
  | none => 0
  | some value =>
    let (convertResult, err) := Atoi (Sprint value)
    if err.isSome then 0 else convertResult

/-- The closure registered with `rabbitmq.NewConsumer` (lines 68-109 of
`main.go`). -/
def handler (appConfig : Config) (processor : Processor) (publisher : Publisher)
    (d : Delivery) : HandlerResult :=
  match processor.Process d with
  | some _ =>
    let retryCount := wrapInt (extractRetryCount d.Headers + 1)
    let rabbitMqHeaderTable : Table := [("x-retry", HeaderValue.int retryCount)]
    if retryCount ≥ appConfig.RABBITMQ_MAXIMUM_RETRY then
      let sent := publisher.Publish
        { data := d.Body, routingKeys := [d.RoutingKey],
          exchange := appConfig.RABBITMQ_DEAD_LETTERING_EXCHANGE,
          contentType := d.ContentType,
          headers := rabbitMqHeaderTable } []
      { action := Action.Ack, headers := d.Headers, published := sent.2 }
    else
      let sent := publisher.Publish
        { data := d.Body, routingKeys := [d.RoutingKey],
          exchange := appConfig.RABBITMQ_ASSIGNMENT_EXCHANGE,
          contentType := d.ContentType,
          headers := rabbitMqHeaderTable } []
      { action := Action.Ack, headers := d.Headers, published := sent.2 }
  | none => { action := Action.Ack, headers := d.Headers, published := [] }

/-- The delivery with its `x-retry` header set to `value` (any earlier entry
for the key is replaced). -/
def Delivery.withRetryHeader (d : Delivery) (value : HeaderValue) : Delivery :=
  { d with Headers := ("x-retry", value) :: d.Headers.filter (fun e => e.1 != "x-retry") }

/-! ## Redelivery cycles -/

/-- The deliveries a publish comes back as: one per routing key, carrying the
published payload, content type and header table unchanged. -/
def redeliveries (p : PublishCall) : List Delivery :=
  p.routingKeys.map fun key =>
    { Body := p.data, RoutingKey := key, ContentType := p.contentType, Headers := p.headers }

/-- The deliveries that reach the handler again after a run: those of the
publishes made to the primary exchange. -/
def requeued (appConfig : Config) (published : List PublishCall) : List Delivery :=
  (published.filter fun p => p.exchange == appConfig.RABBITMQ_ASSIGNMENT_EXCHANGE).flatMap redeliveries

/-- The consumer working through its queue: the first delivery is handled, the
messages it published to the primary exchange join the end of the queue, and so
on, for at most the given number of deliveries.  The result lists every handled
delivery with the publishes made for it. -/
def runCycles (appConfig : Config) (processor : Processor) (publisher : Publisher) :
    Nat → List Delivery → List (Delivery × List PublishCall)
  | 0, _ => []
  | _ + 1, [] => []
  | fuel + 1, d :: queue =>
    let r := handler appConfig processor publisher d
    (d, r.published) :: runCycles appConfig processor publisher fuel
      (queue ++ requeued appConfig r.published)

/-- The `x-retry` header is present and its value prints as the decimal text
of the integer `c`: an integer value `c` itself, or a string spelling it. -/
def holdsInteger (headers : Table) (c : Int) : Prop :=
  (headers.lookup "x-retry").map Sprint = some (fmtInteger c)

instance (headers : Table) (c : Int) : Decidable (holdsInteger headers c) :=
  inferInstanceAs (Decidable ((headers.lookup "x-retry").map Sprint = some (fmtInteger c)))

/-- The `x-retry` header is present and `strconv.Atoi` returns an error for
the text of its value. -/
def malformedRetryHeader (headers : Table) : Prop :=
  (headers.lookup "x-retry").map (fun value => (Atoi (Sprint value)).2.isSome) = some true

instance (headers : Table) : Decidable (malformedRetryHeader headers) :=
  inferInstanceAs (Decidable
    ((headers.lookup "x-retry").map (fun value => (Atoi (Sprint value)).2.isSome) = some true))

/-- The delivery handled at attempt `k + 1` of a message that keeps failing:
the original one first, afterwards the republished message, whose only header
is the count written by the previous attempt. -/
def attempt (d : Delivery) (k : Nat) : Delivery :=
  if k = 0 then d else { d with Headers := [("x-retry", HeaderValue.int (k : Int))] }

/-- The publish made for the failure that brings the count to `k`. -/
def retryPublish (appConfig : Config) (d : Delivery) (k : Nat) : PublishCall :=
  { data := d.Body, routingKeys := [d.RoutingKey],
    exchange :=
      if (k : Int) ≥ appConfig.RABBITMQ_MAXIMUM_RETRY then
        appConfig.RABBITMQ_DEAD_LETTERING_EXCHANGE
      else appConfig.RABBITMQ_ASSIGNMENT_EXCHANGE,
    contentType := d.ContentType,
    headers := [("x-retry", HeaderValue.int (k : Int))] }

/-! ## Scenarios -/

/-- Configuration with the given retry limit. -/
def scenarioConfig (maxRetry : Int) : Config :=
  { RABBITMQ_ASSIGNMENT_EXCHANGE := "assignment",
    RABBITMQ_DEAD_LETTERING_EXCHANGE := "assignment-dead-letter",
    RABBITMQ_MAXIMUM_RETRY := maxRetry }

/-- A processor that fails on every delivery. -/
def failingProcessor : Processor := { Process := fun _ => some { msg := "cannot create assignment" } }

/-- A processor that succeeds on every delivery. -/
def succeedingProcessor : Processor := { Process := fun _ => none }

/-- A publisher whose every publish is accepted. -/
def acceptingPublisher : Publisher := { outcome := fun _ => none }

/-- A publisher whose every publish returns an error. -/
def rejectingPublisher : Publisher := { outcome := fun _ => some { msg := "channel closed" } }

/-- A delivery with the given header table. -/
def scenarioDelivery (headers : Table) : Delivery :=
  { Body := [123, 125], RoutingKey := "assignment.create", ContentType := "application/json",
    Headers := headers }

/-! ## Reading back what `fmt` printed -/

theorem digitByte_toNat (d : Nat) (h : d < 10) : (digitByte d).toNat = 48 + d := by
  interval_cases d <;> decide

theorem digitByte_ne_minus (d : Nat) (h : d < 10) : digitByte d ≠ '-' := by
  interval_cases d <;> decide

theorem digitByte_ne_plus (d : Nat) (h : d < 10) : digitByte d ≠ '+' := by
  interval_cases d <;> decide

theorem atoiFast_digit (d : Nat) (h : d < 10) (rest : List Char) (n : Int) :
    atoiFast (digitByte d :: rest) n = atoiFast rest (n * 10 + (d : Int)) := by
  have hd := digitByte_toNat d h
  rw [atoiFast, hd, if_neg (by omega)]
  congr 2
  omega

theorem parseUintLoop_digit (d : Nat) (h : d < 10) (rest : List Char) (n : Nat)
    (hfit : n * 10 + d < 2 ^ 64) :
    parseUintLoop (digitByte d :: rest) n = parseUintLoop rest (n * 10 + d) := by
  have hd := digitByte_toNat d h
  have h1 : n * 10 % 2 ^ 64 = n * 10 := Nat.mod_eq_of_lt (by omega)
  have h2 : (n * 10 + d) % 2 ^ 64 = n * 10 + d := Nat.mod_eq_of_lt hfit
  rw [parseUintLoop, hd]
  simp only [h1, h2]
  rw [if_pos (by omega)]
  simp only [Nat.add_sub_cancel_left]
  rw [if_neg (by omega), if_neg (by omega), if_neg (by omega), h2]

theorem fmtDigits_head (room u : Nat) (buf : List Char) :
    ∃ d t, d < 10 ∧ fmtDigits (room + 1) u buf = digitByte d :: t := by
  induction room generalizing u buf with
  | zero =>
    by_cases hu : u ≥ 10
    · exact ⟨u - u / 10 * 10, buf, by omega, by simp [fmtDigits, hu]⟩
    · exact ⟨u, buf, by omega, by simp [fmtDigits, hu]⟩
  | succ room ih =>
    by_cases hu : u ≥ 10
    · obtain ⟨d, t, hd, ht⟩ := ih (u / 10) (digitByte (u - u / 10 * 10) :: buf)
      refine ⟨d, t, hd, ?_⟩
      rw [fmtDigits, if_pos hu, ht]
    · exact ⟨u, buf, by omega, by rw [fmtDigits, if_neg hu]⟩

theorem atoiFast_fmtDigits (room u : Nat) (buf : List Char) (h : u < 10 ^ room) :
    atoiFast (fmtDigits room u buf) 0 = atoiFast buf (u : Int) := by
  induction room generalizing u buf with
  | zero =>
    have : u = 0 := by simpa using h
    subst this
    simp [fmtDigits]
  | succ room ih =>
    by_cases hu : u ≥ 10
    · have hq : u / 10 < 10 ^ room := by
        rw [Nat.div_lt_iff_lt_mul (by norm_num)]
        rw [pow_succ] at h
        exact h
      rw [fmtDigits, if_pos hu, ih _ _ hq, atoiFast_digit _ (by omega)]
      congr 1
      omega
    · rw [fmtDigits, if_neg hu, atoiFast_digit _ (by omega)]
      congr 1
      omega

theorem parseUintLoop_fmtDigits (room u : Nat) (buf : List Char) (h : u < 10 ^ room)
    (hfit : u < 2 ^ 64) :
    parseUintLoop (fmtDigits room u buf) 0 = parseUintLoop buf u := by
  induction room generalizing u buf with
  | zero =>
    have : u = 0 := by simpa using h
    subst this
    simp [fmtDigits]
  | succ room ih =>
    by_cases hu : u ≥ 10
    · have hq : u / 10 < 10 ^ room := by
        rw [Nat.div_lt_iff_lt_mul (by norm_num)]
        rw [pow_succ] at h
        exact h
      rw [fmtDigits, if_pos hu, ih _ _ hq (by omega),
        parseUintLoop_digit _ (by omega) _ _ (by omega)]
      congr 1
      omega
    · rw [fmtDigits, if_neg hu, parseUintLoop_digit _ (by omega) _ _ (by omega)]
      congr 1
      omega

theorem lt_ten_pow_succ (n : Nat) : n < 10 ^ (n + 1) :=
  lt_trans (Nat.lt_pow_self (by norm_num) n) (Nat.pow_lt_pow_right (by norm_num) (by omega))

theorem wrapInt_of_isGoInt (x : Int) (h : isGoInt x) : wrapInt x = x := by
  unfold isGoInt minInt maxInt at h
  unfold wrapInt
  omega

theorem ParseInt_nonneg (d : Nat) (t : List Char) (hd : d < 10) (n : Nat)
    (hn : (n : Int) ≤ maxInt)
    (hloop : parseUintLoop (digitByte d :: t) 0 = (n, none)) :
    ParseInt (digitByte d :: t) = ((n : Int), none) := by
  have h1 := digitByte_ne_minus d hd
  have h2 := digitByte_ne_plus d hd
  unfold maxInt at hn
  have hw : wrapInt (n : Int) = n := wrapInt_of_isGoInt _ (by
    unfold isGoInt minInt maxInt; omega)
  have hlt : n < 9223372036854775808 := by omega
  simp [ParseInt, ParseUint, h1, h2, hloop, hw, hlt]

theorem ParseInt_neg (d : Nat) (t : List Char) (n : Nat)
    (hn : minInt ≤ -(n : Int))
    (hloop : parseUintLoop (digitByte d :: t) 0 = (n, none)) :
    ParseInt ('-' :: digitByte d :: t) = (-(n : Int), none) := by
  unfold minInt at hn
  have hw : wrapInt (-wrapInt (n : Int)) = -(n : Int) := by
    unfold wrapInt
    omega
  have hlt : n ≤ 9223372036854775808 := by omega
  simp [ParseInt, ParseUint, hloop, hw, hlt]

/-- What `fmt.Sprint` prints for a Go `int`, `strconv.Atoi` reads back as the
same `int`, without error. -/
theorem Atoi_fmtInteger (v : Int) (h : isGoInt v) : Atoi (fmtInteger v) = (v, none) := by
  obtain ⟨d, t, hd, hshape⟩ := fmtDigits_head v.natAbs v.natAbs []
  have hfast := atoiFast_fmtDigits (v.natAbs + 1) v.natAbs [] (lt_ten_pow_succ _)
  have hslow := parseUintLoop_fmtDigits (v.natAbs + 1) v.natAbs [] (lt_ten_pow_succ _) (by
    unfold isGoInt minInt maxInt at h; omega)
  rw [hshape] at hfast hslow
  have hnil : atoiFast [] (v.natAbs : Int) = ((v.natAbs : Int), none) := rfl
  have hnil2 : parseUintLoop [] v.natAbs = (v.natAbs, none) := rfl
  rw [hnil] at hfast
  rw [hnil2] at hslow
  have h1 := digitByte_ne_minus d hd
  have h2 := digitByte_ne_plus d hd
  by_cases hv : v < 0
  · have hval : -((v.natAbs : Nat) : Int) = v := by omega
    have hp := ParseInt_neg d t v.natAbs (by rw [hval]; exact h.1) hslow
    rw [hval] at hp
    simp only [Atoi, fmtInteger, hshape, if_pos hv]
    split
    · simp only [true_or, true_and, reduceCtorEq, if_false, if_true]
      rw [hfast]
      simp only [hval]
    · exact hp
  · have hval : ((v.natAbs : Nat) : Int) = v := by omega
    have hp := ParseInt_nonneg d t hd v.natAbs (by rw [hval]; exact h.2) hslow
    rw [hval] at hp
    simp only [Atoi, fmtInteger, hshape, if_neg hv]
    split
    · simp only [h1, h2, or_self, false_and, if_false]
      rw [hfast]
      simp only [hval]
    · exact hp

/-! ## The retry count the handler extracts -/

theorem extractRetryCount_absent (headers : Table)
    (h : headers.lookup "x-retry" = none) : extractRetryCount headers = 0 := by
  simp [extractRetryCount, h]

theorem extractRetryCount_holdsInteger (headers : Table) (c : Int) (hc : isGoInt c)
    (h : holdsInteger headers c) : extractRetryCount headers = c := by
  obtain ⟨value, hv, hs⟩ := Option.map_eq_some'.mp h
  unfold extractRetryCount
  rw [hv]
  simp only [hs, Atoi_fmtInteger c hc]
  rfl

theorem extractRetryCount_malformed (headers : Table)
    (h : malformedRetryHeader headers) : extractRetryCount headers = 0 := by
  obtain ⟨value, hv, hs⟩ := Option.map_eq_some'.mp h
  unfold extractRetryCount
  rw [hv]
  simp only [hs]
  rfl

/-! ## What a failed delivery publishes -/

theorem handler_published_of_failure (appConfig : Config) (processor : Processor)
    (publisher : Publisher) (d : Delivery) (hfail : processor.Process d ≠ none) :
    (handler appConfig processor publisher d).published =
      [{ data := d.Body, routingKeys := [d.RoutingKey],
         exchange :=
           if wrapInt (extractRetryCount d.Headers + 1) ≥ appConfig.RABBITMQ_MAXIMUM_RETRY then
             appConfig.RABBITMQ_DEAD_LETTERING_EXCHANGE
           else appConfig.RABBITMQ_ASSIGNMENT_EXCHANGE,
         contentType := d.ContentType,
         headers := [("x-retry", HeaderValue.int (wrapInt (extractRetryCount d.Headers + 1)))] }] := by
  unfold handler
  cases hp : processor.Process d with
  | none => exact absurd hp hfail
  | some e =>
    simp only [Publisher.Publish, List.nil_append]
    split <;> rfl

theorem handler_published_of_success (appConfig : Config) (processor : Processor)
    (publisher : Publisher) (d : Delivery) (hok : processor.Process d = none) :
    (handler appConfig processor publisher d).published = [] := by
  unfold handler
  rw [hok]

theorem handler_action (appConfig : Config) (processor : Processor)
    (publisher : Publisher) (d : Delivery) :
    (handler appConfig processor publisher d).action = Action.Ack := by
  unfold handler
  cases processor.Process d with
  | none => rfl
  | some e =>
    simp only
    split <;> rfl

theorem handler_headers (appConfig : Config) (processor : Processor)
    (publisher : Publisher) (d : Delivery) :
    (handler appConfig processor publisher d).headers = d.Headers := by
  unfold handler
  cases processor.Process d with
  | none => rfl
  | some e =>
    simp only
    split <;> rfl

theorem wrapInt_succ_of_lt (c bound : Int) (hc : minInt ≤ c) (hlt : c + 1 ≤ bound)
    (hb : isGoInt bound) : wrapInt (c + 1) = c + 1 :=
  wrapInt_of_isGoInt _ (by
    unfold isGoInt minInt maxInt at *
    omega)

/-- The dead-letter rule for every count whose successor still fits a Go
`int`: with the header absent (`c = 0`) or holding `0 <= c < maxInt`, and
`c + 1 >= maxRetry`, the one publish goes to the dead-letter exchange with
`x-retry = c + 1`. -/
theorem dead_letter_below_maxInt (appConfig : Config) (processor : Processor)
    (publisher : Publisher) (d : Delivery) (c : Int)
    (hfail : processor.Process d ≠ none)
    (hheader : (d.Headers.lookup "x-retry" = none ∧ c = 0) ∨ (holdsInteger d.Headers c ∧ 0 ≤ c))
    (hfit : c < maxInt)
    (hge : c + 1 ≥ appConfig.RABBITMQ_MAXIMUM_RETRY) :
    (handler appConfig processor publisher d).published =
      [{ data := d.Body, routingKeys := [d.RoutingKey],
         exchange := appConfig.RABBITMQ_DEAD_LETTERING_EXCHANGE,
         contentType := d.ContentType,
         headers := [("x-retry", HeaderValue.int (c + 1))] }] := by
  have hc0 : 0 ≤ c := by
    rcases hheader with ⟨_, h0⟩ | ⟨_, h0⟩
    · omega
    · exact h0
  have hint : isGoInt c := by
    unfold isGoInt minInt; unfold maxInt at hfit ⊢; omega
  have hcount : extractRetryCount d.Headers = c := by
    rcases hheader with ⟨habs, h0⟩ | ⟨hh, _⟩
    · rw [extractRetryCount_absent _ habs, h0]
    · exact extractRetryCount_holdsInteger _ _ hint hh
  have hw : wrapInt (c + 1) = c + 1 := wrapInt_of_isGoInt _ (by
    unfold isGoInt minInt maxInt at *; omega)
  rw [handler_published_of_failure _ _ _ _ hfail, hcount, hw, if_pos hge]

theorem extractRetryCount_withRetryHeader_zero (d : Delivery) :
    extractRetryCount (d.withRetryHeader (HeaderValue.int 0)).Headers = 0 := by
  have h0 : Atoi (Sprint (HeaderValue.int 0)) = (0, none) := by decide
  simp [extractRetryCount, Delivery.withRetryHeader, List.lookup, h0]

/-- The texts named as malformed retry counts are rejected by `strconv.Atoi`:
a word, the empty string, a non-integral number, a digit string beyond the
range of `int`, and what `fmt.Sprint` prints for `nil` and for a boolean. -/
theorem malformed_examples :
    malformedRetryHeader [("x-retry", HeaderValue.str "abc")] ∧
    malformedRetryHeader [("x-retry", HeaderValue.str "")] ∧
    malformedRetryHeader [("x-retry", HeaderValue.rendered "1.5")] ∧
    malformedRetryHeader [("x-retry", HeaderValue.str "99999999999999999999")] ∧
    malformedRetryHeader [("x-retry", HeaderValue.str "9223372036854775808")] ∧
    malformedRetryHeader [("x-retry", HeaderValue.nil)] ∧
    malformedRetryHeader [("x-retry", HeaderValue.bool true)] := by
  decide

theorem extractRetryCount_cases (headers : Table) :
    extractRetryCount headers = 0 ∨
    ∃ value, headers.lookup "x-retry" = some value ∧ (Atoi (Sprint value)).2 = none ∧
      extractRetryCount headers = (Atoi (Sprint value)).1 := by
  unfold extractRetryCount
  cases hv : headers.lookup "x-retry" with
  | none => exact Or.inl rfl
  | some value =>
    cases he : (Atoi (Sprint value)).2 with
    | none => exact Or.inr ⟨value, rfl, he, by simp [he]⟩
    | some e => exact Or.inl (by simp [he])

/-! ## A message that keeps failing -/

theorem attempt_Body (d : Delivery) (k : Nat) : (attempt d k).Body = d.Body := by
  unfold attempt; split <;> rfl

theorem attempt_RoutingKey (d : Delivery) (k : Nat) :
    (attempt d k).RoutingKey = d.RoutingKey := by
  unfold attempt; split <;> rfl

theorem attempt_ContentType (d : Delivery) (k : Nat) :
    (attempt d k).ContentType = d.ContentType := by
  unfold attempt; split <;> rfl

theorem extractRetryCount_attempt (d : Delivery) (k : Nat)
    (habsent : d.Headers.lookup "x-retry" = none) (hk : isGoInt (k : Int)) :
    extractRetryCount (attempt d k).Headers = (k : Int) := by
  by_cases h0 : k = 0
  · subst h0
    simpa [attempt] using extractRetryCount_absent _ habsent
  · apply extractRetryCount_holdsInteger _ _ hk
    simp [attempt, h0, holdsInteger, List.lookup, Sprint]

theorem handler_published_attempt (appConfig : Config) (processor : Processor)
    (publisher : Publisher) (d : Delivery) (k : Nat)
    (hfail : ∀ x, processor.Process x ≠ none)
    (habsent : d.Headers.lookup "x-retry" = none) (hk : isGoInt ((k : Int) + 1)) :
    (handler appConfig processor publisher (attempt d k)).published =
      [retryPublish appConfig d (k + 1)] := by
  have hk0 : isGoInt (k : Int) := by
    unfold isGoInt minInt maxInt at *; omega
  rw [handler_published_of_failure _ _ _ _ (hfail _), extractRetryCount_attempt d k habsent hk0,
    wrapInt_of_isGoInt _ hk, attempt_Body, attempt_RoutingKey, attempt_ContentType]
  simp [retryPublish]

theorem requeued_retryPublish_primary (appConfig : Config) (d : Delivery) (k : Nat)
    (hk : 0 < k) (hlt : (k : Int) < appConfig.RABBITMQ_MAXIMUM_RETRY) :
    requeued appConfig [retryPublish appConfig d k] = [attempt d k] := by
  have h0 : k ≠ 0 := by omega
  simp [requeued, retryPublish, redeliveries, attempt, h0, not_le.mpr hlt]

theorem requeued_retryPublish_deadLetter (appConfig : Config) (d : Delivery) (k : Nat)
    (hdistinct :
      appConfig.RABBITMQ_ASSIGNMENT_EXCHANGE ≠ appConfig.RABBITMQ_DEAD_LETTERING_EXCHANGE)
    (hge : (k : Int) ≥ appConfig.RABBITMQ_MAXIMUM_RETRY) :
    requeued appConfig [retryPublish appConfig d k] = [] := by
  simp [requeued, retryPublish, hge, Ne.symm hdistinct]

theorem runCycles_nil (appConfig : Config) (processor : Processor) (publisher : Publisher)
    (fuel : Nat) : runCycles appConfig processor publisher fuel [] = [] := by
  cases fuel <;> rfl

/-- The run of a message that always fails, from attempt `k + 1` on, when
`n + 1` attempts are left before the limit `m` is reached. -/
theorem runCycles_attempts (appConfig : Config) (processor : Processor)
    (publisher : Publisher) (d : Delivery) (m : Nat)
    (hmax : appConfig.RABBITMQ_MAXIMUM_RETRY = (m : Int)) (hint : isGoInt (m : Int))
    (hdistinct :
      appConfig.RABBITMQ_ASSIGNMENT_EXCHANGE ≠ appConfig.RABBITMQ_DEAD_LETTERING_EXCHANGE)
    (hfail : ∀ x, processor.Process x ≠ none)
    (habsent : d.Headers.lookup "x-retry" = none) :
    ∀ (n k fuel : Nat), k + (n + 1) = m → n + 1 ≤ fuel →
      runCycles appConfig processor publisher fuel [attempt d k] =
        (List.range' k (n + 1)).map
          (fun i => (attempt d i, [retryPublish appConfig d (i + 1)])) := by
  intro n
  induction n with
  | zero =>
    intro k fuel hk hfuel
    obtain ⟨fuel, rfl⟩ : ∃ f, fuel = f + 1 := ⟨fuel - 1, by omega⟩
    have hk1 : isGoInt ((k : Int) + 1) := by
      unfold isGoInt minInt maxInt at *; omega
    have hq := requeued_retryPublish_deadLetter appConfig d (k + 1) hdistinct (by
      rw [hmax]; omega)
    simp only [runCycles, handler_published_attempt _ _ _ _ _ hfail habsent hk1,
      List.nil_append, hq, runCycles_nil]
    rfl
  | succ n ih =>
    intro k fuel hk hfuel
    obtain ⟨fuel, rfl⟩ : ∃ f, fuel = f + 1 := ⟨fuel - 1, by omega⟩
    have hk1 : isGoInt ((k : Int) + 1) := by
      unfold isGoInt minInt maxInt at *; omega
    have hq := requeued_retryPublish_primary appConfig d (k + 1) (by omega) (by
      rw [hmax]; omega)
    simp only [runCycles, handler_published_attempt _ _ _ _ _ hfail habsent hk1,
      List.nil_append, hq]
    rw [ih (k + 1) fuel (by omega) (by omega)]
    rfl

/-! ## The claims -/

/-- C1, requeue rule: when the processor fails, the `x-retry` header is absent
(`c = 0`) or holds a non-negative integer `c`, and `c + 1 < maxRetry`, the
handler makes exactly one publish; it goes to the primary exchange, not to the
dead-letter exchange, and carries `x-retry = c + 1`. -/
theorem requeue_rule (appConfig : Config) (processor : Processor) (publisher : Publisher)
    (d : Delivery) (c : Int)
    (hmax : isGoInt appConfig.RABBITMQ_MAXIMUM_RETRY)
    (hdistinct :
      appConfig.RABBITMQ_ASSIGNMENT_EXCHANGE ≠ appConfig.RABBITMQ_DEAD_LETTERING_EXCHANGE)
    (hfail : processor.Process d ≠ none)
    (hheader : (d.Headers.lookup "x-retry" = none ∧ c = 0) ∨ (holdsInteger d.Headers c ∧ 0 ≤ c))
    (hlt : c + 1 < appConfig.RABBITMQ_MAXIMUM_RETRY) :
    (handler appConfig processor publisher d).published =
      [{ data := d.Body, routingKeys := [d.RoutingKey],
         exchange := appConfig.RABBITMQ_ASSIGNMENT_EXCHANGE,
         contentType := d.ContentType,
         headers := [("x-retry", HeaderValue.int (c + 1))] }] ∧
    ∀ p ∈ (handler appConfig processor publisher d).published,
      p.exchange ≠ appConfig.RABBITMQ_DEAD_LETTERING_EXCHANGE := by
  have hc0 : 0 ≤ c := by
    rcases hheader with ⟨_, h0⟩ | ⟨_, h0⟩
    · omega
    · exact h0
  have hint : isGoInt c := by
    unfold isGoInt minInt maxInt at *; omega
  have hcount : extractRetryCount d.Headers = c := by
    rcases hheader with ⟨habs, h0⟩ | ⟨hh, _⟩
    · rw [extractRetryCount_absent _ habs, h0]
    · exact extractRetryCount_holdsInteger _ _ hint hh
  have hw : wrapInt (c + 1) = c + 1 :=
    wrapInt_succ_of_lt c _ hint.1 (le_of_lt hlt) hmax
  have hpub := handler_published_of_failure appConfig processor publisher d hfail
  rw [hcount, hw, if_neg (not_le.mpr hlt)] at hpub
  refine ⟨hpub, ?_⟩
  intro p hp
  rw [hpub, List.mem_singleton] at hp
  rw [hp]
  exact hdistinct

/-- Scenario A: `maxRetry = 3`, no `x-retry` header, the processor fails. -/
theorem requeue_rule_witness :
    (handler (scenarioConfig 3) failingProcessor acceptingPublisher (scenarioDelivery [])).published =
      [{ data := [123, 125], routingKeys := ["assignment.create"], exchange := "assignment",
         contentType := "application/json",
         headers := [("x-retry", HeaderValue.int 1)] }] :=
  (requeue_rule (scenarioConfig 3) failingProcessor acceptingPublisher (scenarioDelivery []) 0
    (by decide) (by decide) (by decide) (Or.inl ⟨by decide, rfl⟩) (by decide)).1

/-- C2, at the largest Go `int`: with `maxRetry = 3` and `x-retry` holding
`9223372036854775807` the count satisfies `c + 1 >= maxRetry`, yet
`retryCount++` wraps around and the one publish goes to the primary exchange
with `x-retry = -9223372036854775808`. -/
theorem dead_letter_rule_fails_at_maxInt :
    isGoInt 9223372036854775807 ∧
    holdsInteger [("x-retry", HeaderValue.int 9223372036854775807)] 9223372036854775807 ∧
    (9223372036854775807 : Int) + 1 ≥ (scenarioConfig 3).RABBITMQ_MAXIMUM_RETRY ∧
    (handler (scenarioConfig 3) failingProcessor acceptingPublisher
        (scenarioDelivery [("x-retry", HeaderValue.int 9223372036854775807)])).published =
      [{ data := [123, 125], routingKeys := ["assignment.create"], exchange := "assignment",
         contentType := "application/json",
         headers := [("x-retry", HeaderValue.int (-9223372036854775808))] }] := by
  decide

/-- C3, unconditional acknowledge: whatever the delivery, its headers, the
retry limit, the processor's outcome and the outcome of the republish, the
action the handler returns is `Ack`. -/
theorem ack_always (appConfig : Config) (processor : Processor) (publisher : Publisher)
    (d : Delivery) :
    (handler appConfig processor publisher d).action = Action.Ack ∧
    (handler appConfig processor publisher d).action ≠ Action.NackDiscard ∧
    (handler appConfig processor publisher d).action ≠ Action.NackRequeue := by
  rw [handler_action]
  exact ⟨rfl, by decide, by decide⟩

/-- C4, no publish on success: when the processor returns no error the handler
makes no publish at all and returns `Ack`. -/
theorem no_publish_on_success (appConfig : Config) (processor : Processor)
    (publisher : Publisher) (d : Delivery) (hok : processor.Process d = none) :
    (handler appConfig processor publisher d).published = [] ∧
    (handler appConfig processor publisher d).action = Action.Ack :=
  ⟨handler_published_of_success _ _ _ _ hok, handler_action _ _ _ _⟩

/-- Scenario D: `x-retry = 5`, the processor succeeds. -/
theorem no_publish_on_success_witness :
    (handler (scenarioConfig 3) succeedingProcessor acceptingPublisher
        (scenarioDelivery [("x-retry", HeaderValue.int 5)])).published = [] ∧
    (handler (scenarioConfig 3) succeedingProcessor acceptingPublisher
        (scenarioDelivery [("x-retry", HeaderValue.int 5)])).action = Action.Ack :=
  no_publish_on_success (scenarioConfig 3) succeedingProcessor acceptingPublisher
    (scenarioDelivery [("x-retry", HeaderValue.int 5)]) rfl

/-- C5, a missing or non-numeric retry header counts as zero: when the
processor fails and the `x-retry` header is absent, or its text is rejected by
`strconv.Atoi`, the handler publishes exactly what it publishes for the same
delivery carrying `x-retry = 0`; it makes that one publish and returns `Ack`. -/
theorem malformed_header_defaults_to_zero (appConfig : Config) (processor : Processor)
    (publisher : Publisher) (d : Delivery)
    (hfail : processor.Process d ≠ none)
    (hfail0 : processor.Process (d.withRetryHeader (HeaderValue.int 0)) ≠ none)
    (hbad : d.Headers.lookup "x-retry" = none ∨ malformedRetryHeader d.Headers) :
    (handler appConfig processor publisher d).published =
      (handler appConfig processor publisher (d.withRetryHeader (HeaderValue.int 0))).published ∧
    (handler appConfig processor publisher d).published.length = 1 ∧
    (handler appConfig processor publisher d).action = Action.Ack := by
  have hcount : extractRetryCount d.Headers = 0 := by
    rcases hbad with habs | hmal
    · exact extractRetryCount_absent _ habs
    · exact extractRetryCount_malformed _ hmal
  rw [handler_published_of_failure _ _ _ _ hfail, handler_published_of_failure _ _ _ _ hfail0,
    extractRetryCount_withRetryHeader_zero, hcount]
  exact ⟨rfl, rfl, handler_action _ _ _ _⟩

/-- The header `x-retry = "abc"` with `maxRetry = 3`: same publish as with
`x-retry = 0`. -/
theorem malformed_header_defaults_to_zero_witness :
    (handler (scenarioConfig 3) failingProcessor acceptingPublisher
        (scenarioDelivery [("x-retry", HeaderValue.str "abc")])).published =
      (handler (scenarioConfig 3) failingProcessor acceptingPublisher
        ((scenarioDelivery [("x-retry", HeaderValue.str "abc")]).withRetryHeader
          (HeaderValue.int 0))).published :=
  (malformed_header_defaults_to_zero (scenarioConfig 3) failingProcessor acceptingPublisher
    (scenarioDelivery [("x-retry", HeaderValue.str "abc")])
    (by decide) (by decide) (Or.inr (by decide))).1

/-- C6 as stated fails: with `maxRetry = 1` and `x-retry = "-5"` the extracted
count is `-5`, the handler publishes `x-retry = -4` to the primary exchange,
whereas for the same delivery without the header it publishes `x-retry = 1` to
the dead-letter exchange. -/
theorem negative_header_not_zero :
    holdsInteger [("x-retry", HeaderValue.str "-5")] (-5) ∧
    extractRetryCount [("x-retry", HeaderValue.str "-5")] = -5 ∧
    extractRetryCount [("x-retry", HeaderValue.str "-5")] ≠ 0 ∧
    (handler (scenarioConfig 1) failingProcessor acceptingPublisher
        (scenarioDelivery [("x-retry", HeaderValue.str "-5")])).published =
      [{ data := [123, 125], routingKeys := ["assignment.create"], exchange := "assignment",
         contentType := "application/json",
         headers := [("x-retry", HeaderValue.int (-4))] }] ∧
    (handler (scenarioConfig 1) failingProcessor acceptingPublisher
        (scenarioDelivery [])).published =
      [{ data := [123, 125], routingKeys := ["assignment.create"],
         exchange := "assignment-dead-letter",
         contentType := "application/json",
         headers := [("x-retry", HeaderValue.int 1)] }] ∧
    (handler (scenarioConfig 1) failingProcessor acceptingPublisher
        (scenarioDelivery [("x-retry", HeaderValue.str "-5")])).published ≠
      (handler (scenarioConfig 1) failingProcessor acceptingPublisher
        (scenarioDelivery [])).published := by
  decide

/-- C6 amended, a negative retry header is used as it is: when the processor
fails and the `x-retry` header holds a negative integer `c` of Go's `int`
range (as an integer value or as its decimal string), the extracted count is
`c`, and the one publish carries `x-retry = c + 1` and goes to the dead-letter
exchange when `c + 1 >= maxRetry`, to the primary exchange otherwise. -/
theorem negative_header_kept (appConfig : Config) (processor : Processor)
    (publisher : Publisher) (d : Delivery) (c : Int)
    (hint : isGoInt c) (hneg : c < 0)
    (hfail : processor.Process d ≠ none)
    (hheader : holdsInteger d.Headers c) :
    extractRetryCount d.Headers = c ∧
    (handler appConfig processor publisher d).published =
      [{ data := d.Body, routingKeys := [d.RoutingKey],
         exchange :=
           if c + 1 ≥ appConfig.RABBITMQ_MAXIMUM_RETRY then
             appConfig.RABBITMQ_DEAD_LETTERING_EXCHANGE
           else appConfig.RABBITMQ_ASSIGNMENT_EXCHANGE,
         contentType := d.ContentType,
         headers := [("x-retry", HeaderValue.int (c + 1))] }] := by
  have hcount := extractRetryCount_holdsInteger _ _ hint hheader
  have hw : wrapInt (c + 1) = c + 1 := wrapInt_of_isGoInt _ (by
    unfold isGoInt minInt maxInt at *; omega)
  rw [handler_published_of_failure _ _ _ _ hfail, hcount, hw]
  exact ⟨rfl, rfl⟩

/-- The header `x-retry = -5` (an integer value) with `maxRetry = 3`. -/
theorem negative_header_kept_witness :
    extractRetryCount (scenarioDelivery [("x-retry", HeaderValue.int (-5))]).Headers = -5 ∧
    (handler (scenarioConfig 3) failingProcessor acceptingPublisher
        (scenarioDelivery [("x-retry", HeaderValue.int (-5))])).published =
      [{ data := [123, 125], routingKeys := ["assignment.create"], exchange := "assignment",
         contentType := "application/json",
         headers := [("x-retry", HeaderValue.int (-4))] }] :=
  negative_header_kept (scenarioConfig 3) failingProcessor acceptingPublisher
    (scenarioDelivery [("x-retry", HeaderValue.int (-5))]) (-5)
    (by decide) (by decide) (by decide) (by decide)

/-- C7, the republish keeps payload and routing metadata: for a failed
delivery the one published message has the delivery's body, the one-element
list with its routing key, and its content type, whichever of the two
exchanges it goes to. -/
theorem republish_preserves_payload (appConfig : Config) (processor : Processor)
    (publisher : Publisher) (d : Delivery) (hfail : processor.Process d ≠ none) :
    ∃ p, (handler appConfig processor publisher d).published = [p] ∧
      p.data = d.Body ∧ p.routingKeys = [d.RoutingKey] ∧ p.contentType = d.ContentType ∧
      (p.exchange = appConfig.RABBITMQ_ASSIGNMENT_EXCHANGE ∨
        p.exchange = appConfig.RABBITMQ_DEAD_LETTERING_EXCHANGE) := by
  refine ⟨_, handler_published_of_failure _ _ _ _ hfail, rfl, rfl, rfl, ?_⟩
  simp only
  split
  · exact Or.inr rfl
  · exact Or.inl rfl

/-- Scenario B: `maxRetry = 3`, `x-retry = 2`, the processor fails. -/
theorem republish_preserves_payload_witness :
    ∃ p, (handler (scenarioConfig 3) failingProcessor rejectingPublisher
        (scenarioDelivery [("x-retry", HeaderValue.int 2)])).published = [p] ∧
      p.data = [123, 125] ∧ p.routingKeys = ["assignment.create"] ∧
      p.contentType = "application/json" ∧
      (p.exchange = "assignment" ∨ p.exchange = "assignment-dead-letter") :=
  republish_preserves_payload (scenarioConfig 3) failingProcessor rejectingPublisher
    (scenarioDelivery [("x-retry", HeaderValue.int 2)]) (by decide)

/-- C8 as stated fails: with `maxRetry = 0` and `x-retry = -5` the new count
is `-4 < 0`, and the one publish goes to the primary exchange. -/
theorem nonpositive_limit_requeues_negative_header :
    (scenarioConfig 0).RABBITMQ_MAXIMUM_RETRY ≤ 0 ∧
    (handler (scenarioConfig 0) failingProcessor acceptingPublisher
        (scenarioDelivery [("x-retry", HeaderValue.int (-5))])).published =
      [{ data := [123, 125], routingKeys := ["assignment.create"], exchange := "assignment",
         contentType := "application/json",
         headers := [("x-retry", HeaderValue.int (-4))] }] ∧
    ¬ ∀ p ∈ (handler (scenarioConfig 0) failingProcessor acceptingPublisher
        (scenarioDelivery [("x-retry", HeaderValue.int (-5))])).published,
      p.exchange = (scenarioConfig 0).RABBITMQ_DEAD_LETTERING_EXCHANGE ∧
      p.exchange ≠ (scenarioConfig 0).RABBITMQ_ASSIGNMENT_EXCHANGE := by
  decide

/-- C8 amended, a non-positive retry limit dead-letters every failure whose
count is not negative: when `maxRetry <= 0`, the processor fails, and the
`x-retry` header is absent, rejected by `strconv.Atoi`, or read as a
non-negative integer below the largest `int`, the one publish goes to the
dead-letter exchange and none goes to the primary exchange. -/
theorem nonpositive_limit_dead_letters (appConfig : Config) (processor : Processor)
    (publisher : Publisher) (d : Delivery)
    (hmax : appConfig.RABBITMQ_MAXIMUM_RETRY ≤ 0)
    (hdistinct :
      appConfig.RABBITMQ_ASSIGNMENT_EXCHANGE ≠ appConfig.RABBITMQ_DEAD_LETTERING_EXCHANGE)
    (hfail : processor.Process d ≠ none)
    (hheader : ∀ value, d.Headers.lookup "x-retry" = some value →
      (Atoi (Sprint value)).2 = none →
        0 ≤ (Atoi (Sprint value)).1 ∧ (Atoi (Sprint value)).1 < maxInt) :
    (∃ p, (handler appConfig processor publisher d).published = [p] ∧
      p.exchange = appConfig.RABBITMQ_DEAD_LETTERING_EXCHANGE) ∧
    ∀ p ∈ (handler appConfig processor publisher d).published,
      p.exchange ≠ appConfig.RABBITMQ_ASSIGNMENT_EXCHANGE := by
  have hrange : 0 ≤ extractRetryCount d.Headers ∧ extractRetryCount d.Headers < maxInt := by
    rcases extractRetryCount_cases d.Headers with h0 | ⟨value, hv, he, hc⟩
    · rw [h0]; exact ⟨le_refl _, by decide⟩
    · rw [hc]; exact hheader value hv he
  have hw : wrapInt (extractRetryCount d.Headers + 1) = extractRetryCount d.Headers + 1 :=
    wrapInt_of_isGoInt _ (by
      unfold isGoInt minInt; unfold maxInt at hrange ⊢; omega)
  have hpub := handler_published_of_failure appConfig processor publisher d hfail
  rw [hw, if_pos (by omega)] at hpub
  refine ⟨⟨_, hpub, rfl⟩, ?_⟩
  intro p hp
  rw [hpub, List.mem_singleton] at hp
  rw [hp]
  exact Ne.symm hdistinct

/-- The spec's own case: `maxRetry = 0`, no `x-retry` header, new count
`1 >= 0`. -/
theorem nonpositive_limit_dead_letters_witness :
    ∃ p, (handler (scenarioConfig 0) failingProcessor acceptingPublisher
        (scenarioDelivery [])).published = [p] ∧
      p.exchange = "assignment-dead-letter" :=
  (nonpositive_limit_dead_letters (scenarioConfig 0) failingProcessor acceptingPublisher
    (scenarioDelivery []) (by decide) (by decide) (by decide)
    (fun _ h => absurd h (by simp [scenarioDelivery]))).1

/-- C9, bounded retry across redelivery cycles: a message that arrives
without `x-retry`, fails at every attempt, and comes back with the headers it
was republished with, is handled exactly `m = maxRetry` times however long the
consumer runs; the failure number `i + 1` publishes `x-retry = i + 1`, to the
primary exchange while `i + 1 < m` and to the dead-letter exchange when
`i + 1 = m`; and each count is read back from the republished header as the
integer that was written. -/
theorem bounded_retry_cycles (appConfig : Config) (processor : Processor)
    (publisher : Publisher) (d : Delivery) (m fuel : Nat)
    (hm : 1 ≤ m)
    (hmax : appConfig.RABBITMQ_MAXIMUM_RETRY = (m : Int)) (hint : isGoInt (m : Int))
    (hdistinct :
      appConfig.RABBITMQ_ASSIGNMENT_EXCHANGE ≠ appConfig.RABBITMQ_DEAD_LETTERING_EXCHANGE)
    (hfail : ∀ x, processor.Process x ≠ none)
    (habsent : d.Headers.lookup "x-retry" = none)
    (hfuel : m ≤ fuel) :
    (runCycles appConfig processor publisher fuel [d]).map Prod.snd =
      (List.range m).map (fun i =>
        [{ data := d.Body, routingKeys := [d.RoutingKey],
           exchange :=
             if i + 1 < m then appConfig.RABBITMQ_ASSIGNMENT_EXCHANGE
             else appConfig.RABBITMQ_DEAD_LETTERING_EXCHANGE,
           contentType := d.ContentType,
           headers := [("x-retry", HeaderValue.int ((i : Int) + 1))] }]) ∧
    (runCycles appConfig processor publisher fuel [d]).map Prod.fst =
      (List.range m).map (attempt d) ∧
    (runCycles appConfig processor publisher fuel [d]).length = m ∧
    ∀ k : Nat, k < m → extractRetryCount (attempt d k).Headers = (k : Int) := by
  have hrun := runCycles_attempts appConfig processor publisher d m hmax hint hdistinct hfail
    habsent (m - 1) 0 fuel (by omega) (by omega)
  have hd : attempt d 0 = d := rfl
  rw [hd, Nat.sub_add_cancel hm, ← List.range_eq_range'] at hrun
  rw [hrun]
  refine ⟨?_, ?_, by simp, ?_⟩
  · rw [List.map_map]
    apply List.map_congr_left
    intro i _
    simp only [Function.comp, retryPublish, hmax]
    by_cases hi : i + 1 < m
    · have h1 : ¬ (((i + 1 : Nat) : Int) ≥ (m : Int)) := by omega
      rw [if_neg h1, if_pos hi]
      simp only [Nat.cast_add, Nat.cast_one]
    · have h1 : (((i + 1 : Nat) : Int) ≥ (m : Int)) := by omega
      rw [if_pos h1, if_neg hi]
      simp only [Nat.cast_add, Nat.cast_one]
  · rw [List.map_map]
    rfl
  · intro k hk
    exact extractRetryCount_attempt d k habsent (by
      unfold isGoInt minInt maxInt at *; omega)

/-- The retry limit 3: three attempts, two requeues, then the dead-letter
exchange. -/
theorem bounded_retry_cycles_witness :
    (runCycles (scenarioConfig 3) failingProcessor acceptingPublisher 10
        [scenarioDelivery []]).length = 3 :=
  (bounded_retry_cycles (scenarioConfig 3) failingProcessor acceptingPublisher
    (scenarioDelivery []) 3 10 (by decide) rfl (by decide) (by decide)
    (fun _ => by simp [failingProcessor]) (by decide) (by decide)).2.2.1

/-- C10, the republished headers are rebuilt: for a failed delivery the header
table of the one published message is the single entry `x-retry` holding the
new count, no other key of the delivery is in it, and the delivery's own
header map is as it was. -/
theorem republished_headers_rebuilt (appConfig : Config) (processor : Processor)
    (publisher : Publisher) (d : Delivery) (hfail : processor.Process d ≠ none) :
    (∃ p, (handler appConfig processor publisher d).published = [p] ∧
      p.headers = [("x-retry", HeaderValue.int (wrapInt (extractRetryCount d.Headers + 1)))] ∧
      p.headers.length = 1 ∧
      ∀ key, key ≠ "x-retry" → p.headers.lookup key = none) ∧
    (handler appConfig processor publisher d).headers = d.Headers := by
  refine ⟨⟨_, handler_published_of_failure _ _ _ _ hfail, rfl, rfl, ?_⟩, handler_headers _ _ _ _⟩
  intro key hkey
  have hne : (key == "x-retry") = false := by simpa using hkey
  simp [List.lookup, hne]

/-- A delivery carrying `x-retry = 1` next to two other headers. -/
theorem republished_headers_rebuilt_witness :
    (∃ p, (handler (scenarioConfig 3) failingProcessor acceptingPublisher
        (scenarioDelivery [("trace-id", HeaderValue.str "7f3a"), ("x-retry", HeaderValue.int 1),
          ("x-origin", HeaderValue.str "api")])).published = [p] ∧
      p.headers = [("x-retry", HeaderValue.int 2)] ∧
      p.headers.length = 1 ∧
      ∀ key, key ≠ "x-retry" → p.headers.lookup key = none) ∧
    (handler (scenarioConfig 3) failingProcessor acceptingPublisher
        (scenarioDelivery [("trace-id", HeaderValue.str "7f3a"), ("x-retry", HeaderValue.int 1),
          ("x-origin", HeaderValue.str "api")])).headers =
      [("trace-id", HeaderValue.str "7f3a"), ("x-retry", HeaderValue.int 1),
        ("x-origin", HeaderValue.str "api")] :=
  republished_headers_rebuilt (scenarioConfig 3) failingProcessor acceptingPublisher
    (scenarioDelivery [("trace-id", HeaderValue.str "7f3a"), ("x-retry", HeaderValue.int 1),
      ("x-origin", HeaderValue.str "api")]) (by decide)

end AssignmentCreateConsumer
